import Mathlib

set_option maxHeartbeats 1000000

/-! Shallow embedding of the CwaWeather backend (src/server.js).

The upstream document shape, the `CITY_MAP` table, the forecast
normalization performed inside `getCityWeather`, and the route handler
for `/api/weather/:city` are translated into pure Lean definitions.
A JavaScript out-of-bounds access (`element.time[i]` being `undefined`
followed by a property read) throws a `TypeError`; it is modelled by the
`Except` error channel (`NormError.typeError`), which the surrounding
`try/catch` of the source turns into a generic 500 response. -/

deriving instance DecidableEq for Except

namespace CWA

/-- One `parameter` object inside a time slot (`element.time[i].parameter`). -/
structure Parameter where
  parameterName : String
deriving DecidableEq

/-- One entry of an element's `time` array: `{startTime, endTime, parameter}`. -/
structure TimeSlot where
  startTime : String
  endTime : String
  parameter : Parameter
deriving DecidableEq

/-- One weather element: `{elementName, time: [...]}`. -/
structure WeatherElement where
  elementName : String
  time : List TimeSlot
deriving DecidableEq

/-- One per-location record: `{locationName, weatherElement: [...]}`. -/
structure LocationData where
  locationName : String
  weatherElement : List WeatherElement
deriving DecidableEq

/-- The `records` object of the upstream body:
`{datasetDescription, location: [...]}`. -/
structure Records where
  datasetDescription : String
  location : List LocationData
deriving DecidableEq

/-- The upstream response body (`response.data`). -/
structure RawDocument where
  records : Records
deriving DecidableEq

/-- One normalized forecast entry, with the source's field names
(server.js lines 105-114). -/
structure Forecast where
  startTime : String
  endTime : String
  weather : String
  rain : String
  minTemp : String
  maxTemp : String
  comfort : String
  windSpeed : String
deriving DecidableEq

/-- The normalized output object `weatherData` (server.js lines 94-98). -/
structure WeatherData where
  city : String
  updateTime : String
  forecasts : List Forecast
deriving DecidableEq

/-- Errors of the normalization transform: the explicit not-found return
(server.js lines 86-91) and a thrown JavaScript `TypeError` from reading a
property of `undefined` (an out-of-bounds array access). -/
inductive NormError where
  | notFound (msg : String)
  | typeError
deriving DecidableEq

/-- The `switch (element.elementName)` of server.js lines 118-137: each
recognized code overwrites one field of the forecast under construction
(PoP appends "%", MinT/MaxT append "°C"); any other code falls through
and leaves the forecast unchanged. -/
def applySwitch (f : Forecast) (name : String) (value : Parameter) : Forecast :=
  if name = "Wx" then { f with weather := value.parameterName }
  else if name = "PoP" then { f with rain := value.parameterName ++ "%" }
  else if name = "MinT" then { f with minTemp := value.parameterName ++ "°C" }
  else if name = "MaxT" then { f with maxTemp := value.parameterName ++ "°C" }
  else if name = "CI" then { f with comfort := value.parameterName }
  else if name = "WS" then { f with windSpeed := value.parameterName }
  else f

/-- One iteration of the `weatherElements.forEach` body (server.js lines
116-138): read `element.time[i].parameter` — a `TypeError` if index `i`
is out of bounds for this element — then dispatch on the element code. -/
def applyElement (i : Nat) (f : Forecast) (e : WeatherElement) :
    Except Unit Forecast :=
  match e.time[i]? with
  | none => .error ()
  | some slot => .ok (applySwitch f e.elementName slot.parameter)

/-- Left fold in the `Except` monad, aborting at the first error, exactly
like a JavaScript `forEach` interrupted by a thrown exception. -/
def foldExcept (g : σ → α → Except ε σ) (init : σ) : List α → Except ε σ
  | [] => .ok init
  | x :: xs =>
    match g init x with
    | .error e => .error e
    | .ok s => foldExcept g s xs

/-- Build the forecast for time index `i` (server.js lines 105-138):
start from the first element's i-th slot times and empty-string fields,
then run every element through the switch. -/
def buildForecast (weatherElements : List WeatherElement)
    (first : WeatherElement) (i : Nat) : Except Unit Forecast :=
  match first.time[i]? with
  | none => .error ()
  | some slot0 =>
    foldExcept (applyElement i)
      { startTime := slot0.startTime, endTime := slot0.endTime,
        weather := "", rain := "", minTemp := "", maxTemp := "",
        comfort := "", windSpeed := "" }
      weatherElements

/-- Sequence a list of fallible computations in order, aborting at the
first error — the semantics of the `for (let i = 0; ...)` loop pushing
one forecast per iteration. -/
def mapExcept (f : α → Except ε β) : List α → Except ε (List β)
  | [] => .ok []
  | x :: xs =>
    match f x with
    | .error e => .error e
    | .ok y =>
      match mapExcept f xs with
      | .error e => .error e
      | .ok ys => .ok (y :: ys)

/-- The normalization transform of `getCityWeather` (server.js lines
84-141), from the successful upstream body and the resolved city name to
either the normalized `weatherData` or an error:
`location[0]` missing gives the explicit not-found message; reading
`weatherElements[0].time` or any out-of-bounds `time[i]` off `undefined`
throws, modelled as `typeError`. -/
def normalize (raw : RawDocument) (cityName : String) :
    Except NormError WeatherData :=
  match raw.records.location.head? with
  | none => .error (.notFound ("無法取得" ++ cityName ++ "天氣資料"))
  | some locationData =>
    match locationData.weatherElement.head? with
    | none => .error .typeError
    | some first =>
      let timeCount := first.time.length
      match mapExcept (buildForecast locationData.weatherElement first)
          (List.range timeCount) with
      | .error _ => .error .typeError
      | .ok forecasts =>
        .ok { city := locationData.locationName,
              updateTime := raw.records.datasetDescription,
              forecasts := forecasts }

/-- The 22-entry city table of server.js lines 32-55, in source order. -/
def CITY_MAP : List (String × String) :=
  [("taipei", "臺北市"),
   ("newtaipei", "新北市"),
   ("taoyuan", "桃園市"),
   ("taichung", "臺中市"),
   ("tainan", "臺南市"),
   ("kaohsiung", "高雄市"),
   ("keelung", "基隆市"),
   ("hsinchu-city", "新竹市"),
   ("hsinchu", "新竹縣"),
   ("miaoli", "苗栗縣"),
   ("changhua", "彰化縣"),
   ("nantou", "南投縣"),
   ("yunlin", "雲林縣"),
   ("chiayi-city", "嘉義市"),
   ("chiayi", "嘉義縣"),
   ("pingtung", "屏東縣"),
   ("yilan", "宜蘭縣"),
   ("hualien", "花蓮縣"),
   ("taitung", "臺東縣"),
   ("penghu", "澎湖縣"),
   ("kinmen", "金門縣"),
   ("lienchiang", "連江縣")]

/-- Own-property lookup on the `CITY_MAP` object literal (keys are
unique, so the first match is the only match). -/
def cityLookup (code : String) : Option String :=
  (CITY_MAP.find? (fun p => p.1 = code)).map Prod.snd

/-- A value `CITY_MAP[cityCode]` can produce in JavaScript: one of the
own city-name strings, an inherited `Object.prototype` method (a
function object), or the inherited `Object.prototype` itself via
`__proto__`. -/
inductive JsValue where
  | strVal (s : String)
  | protoFn (fnName : String)
  | protoObj
deriving DecidableEq

/-- The `Object.prototype` method names an object literal inherits
(property access on `CITY_MAP` finds them after missing an own key). -/
def protoFnNames : List String :=
  ["constructor", "hasOwnProperty", "isPrototypeOf",
   "propertyIsEnumerable", "toLocaleString", "toString", "valueOf",
   "__defineGetter__", "__defineSetter__", "__lookupGetter__",
   "__lookupSetter__"]

/-- JavaScript property access `CITY_MAP[cityCode]`: an own key yields
its city-name string; otherwise the prototype chain is consulted, so
`"__proto__"` yields `Object.prototype` and the `Object.prototype`
method names yield function objects (the one behind `"constructor"` is
the `Object` function); everything else is `undefined`. -/
def CITY_MAP_get (code : String) : Option JsValue :=
  match cityLookup code with
  | some s => some (.strVal s)
  | none =>
    if code = "__proto__" then some .protoObj
    else if protoFnNames.contains code then
      some (.protoFn (if code = "constructor" then "Object" else code))
    else none

/-- JavaScript truthiness of a looked-up value (`!cityName`): strings
are truthy when non-empty; functions and objects are always truthy. -/
def jsTruthy : JsValue → Bool
  | .strVal s => !s.isEmpty
  | .protoFn _ => true
  | .protoObj => true

/-- The string JavaScript interpolation makes of a looked-up value
(template literals in `getCityWeather` stringify `cityName`). -/
def jsToString : JsValue → String
  | .strVal s => s
  | .protoFn fnName => "function " ++ fnName ++ "() { [native code] }"
  | .protoObj => "[object Object]"

/-- The JavaScript truthiness test `!CWA_API_KEY`: the key is missing
when unset or the empty string. -/
def keyMissing : Option String → Bool
  | none => true
  | some s => s.isEmpty

/-- The HTTP responses the handlers produce, carrying the fields of the
JSON bodies that the claims refer to. -/
inductive Response where
  | configErr (status : Nat) (message : String)
  | notFoundResp (status : Nat) (message : String)
  | serverErr (status : Nat) (message : String)
  | badRequest (status : Nat) (message : String)
      (supportedCities : List String) (requestedCity : String)
  | okResp (status : Nat) (data : WeatherData)
deriving DecidableEq

/-- `getCityWeather` (server.js lines 60-165): missing API key short-
circuits to a 500 configuration error before the upstream call; otherwise
the upstream body `raw` is normalized, the explicit not-found return gives
a 404 with the name-bearing message, a thrown `TypeError` is caught with no
`error.response` and yields the generic 500, and success wraps the data. -/
def getCityWeather (apiKey : Option String) (raw : RawDocument)
    (cityName : String) : Response :=
  if keyMissing apiKey then
    .configErr 500 "請在 .env 檔案中設定 CWA_API_KEY"
  else
    match normalize raw cityName with
    | .error (.notFound msg) => .notFoundResp 404 msg
    | .error .typeError => .serverErr 500 "無法取得天氣資料，請稍後再試"
    | .ok wd => .okResp 200 wd

/-- `String.prototype.toLowerCase` restricted to its ASCII behavior
(A-Z mapped to a-z, every other character left alone); the full JS
function additionally applies Unicode lowercase mappings, so this model
agrees with it exactly on ASCII parameters. -/
def toLowerStr (s : String) : String := String.mk (s.data.map Char.toLower)

/-- The `/api/weather/:city` route (server.js lines 190-204): lower-case
the path parameter, read `CITY_MAP[cityCode]` — prototype chain included
— and reject with the 400 listing the supported keys only when the read
value is falsy (`undefined` for codes that hit neither an own key nor an
inherited property); any truthy value, own city name or inherited
`Object.prototype` member alike, flows into `getCityWeather`, which
stringifies it wherever it is used. -/
def handleCityRequest (param : String) (apiKey : Option String)
    (raw : RawDocument) : Response :=
  let cityCode := toLowerStr param
  match CITY_MAP_get cityCode with
  | none =>
    .badRequest 400 "請使用以下城市代碼之一" (CITY_MAP.map Prod.fst) cityCode
  | some v =>
    if jsTruthy v then getCityWeather apiKey raw (jsToString v)
    else
      .badRequest 400 "請使用以下城市代碼之一" (CITY_MAP.map Prod.fst) cityCode

/-- The element whose code is `code` that wins the switch: the last
element of the list carrying that `elementName` (later `forEach`
iterations overwrite earlier ones). -/
def lastNamedFrom (code : String) (acc : Option WeatherElement) :
    List WeatherElement → Option WeatherElement
  | [] => acc
  | e :: es => lastNamedFrom code (if e.elementName = code then some e else acc) es

/-- The last element of the list with the given code, if any. -/
def lastNamed (code : String) (es : List WeatherElement) :
    Option WeatherElement :=
  lastNamedFrom code none es

/-- The raw parameter value an element carries at time index `i`. -/
def paramAt (e : WeatherElement) (i : Nat) : String :=
  ((e.time[i]?).map (fun t => t.parameter.parameterName)).getD ""

/-- The text a forecast field ends up with: the last element coded `code`
contributes its i-th raw value with the given suffix appended; with no
such element the field keeps the empty-string default. -/
def fieldText (code suffix : String) (es : List WeatherElement) (i : Nat) :
    String :=
  match lastNamed code es with
  | some e => paramAt e i ++ suffix
  | none => ""

/-- The value a forecast field holds after folding the element list,
starting from default text `dflt`: each element whose code matches
overwrites the accumulator with its i-th value plus the suffix. -/
def fieldOr (code suffix : String) (i : Nat) (dflt : String) :
    List WeatherElement → String
  | [] => dflt
  | e :: es =>
    fieldOr code suffix i
      (if e.elementName = code then paramAt e i ++ suffix else dflt) es

/-- Helper building one `{startTime, endTime, parameter}` slot. -/
def mkSlot (s e v : String) : TimeSlot :=
  { startTime := s, endTime := e, parameter := { parameterName := v } }

/-- Sample `Wx` element with two slots: "Cloudy" then "Rainy". -/
def wxElem : WeatherElement :=
  { elementName := "Wx",
    time := [mkSlot "2024-01-01T00:00" "2024-01-01T06:00" "Cloudy",
             mkSlot "2024-01-01T06:00" "2024-01-01T12:00" "Rainy"] }

/-- Sample `PoP` element with two aligned slots: "10" then "80". -/
def popElem : WeatherElement :=
  { elementName := "PoP",
    time := [mkSlot "2024-01-01T00:00" "2024-01-01T06:00" "10",
             mkSlot "2024-01-01T06:00" "2024-01-01T12:00" "80"] }

/-- Sample location record holding exactly the `Wx` and `PoP` elements. -/
def sampleLoc : LocationData :=
  { locationName := "臺北市", weatherElement := [wxElem, popElem] }

/-- Sample upstream document with the single sample location. -/
def sampleRaw : RawDocument :=
  { records := { datasetDescription := "三十六小時天氣預報",
                 location := [sampleLoc] } }

/-- First forecast entry the sample document normalizes to. -/
def sampleForecast0 : Forecast :=
  { startTime := "2024-01-01T00:00", endTime := "2024-01-01T06:00",
    weather := "Cloudy", rain := "10%", minTemp := "", maxTemp := "",
    comfort := "", windSpeed := "" }

/-- Second forecast entry the sample document normalizes to. -/
def sampleForecast1 : Forecast :=
  { startTime := "2024-01-01T06:00", endTime := "2024-01-01T12:00",
    weather := "Rainy", rain := "80%", minTemp := "", maxTemp := "",
    comfort := "", windSpeed := "" }

/-- The normalized output of the sample document. -/
def sampleWD : WeatherData :=
  { city := "臺北市", updateTime := "三十六小時天氣預報",
    forecasts := [sampleForecast0, sampleForecast1] }

/-- An upstream document whose location list is empty. -/
def emptyRaw : RawDocument :=
  { records := { datasetDescription := "三十六小時天氣預報", location := [] } }

lemma applySwitch_weather (f : Forecast) (name : String) (v : Parameter) :
    (applySwitch f name v).weather =
      if name = "Wx" then v.parameterName else f.weather := by
  unfold applySwitch; split_ifs <;> simp_all

lemma applySwitch_rain (f : Forecast) (name : String) (v : Parameter) :
    (applySwitch f name v).rain =
      if name = "PoP" then v.parameterName ++ "%" else f.rain := by
  unfold applySwitch; split_ifs <;> simp_all

lemma applySwitch_minTemp (f : Forecast) (name : String) (v : Parameter) :
    (applySwitch f name v).minTemp =
      if name = "MinT" then v.parameterName ++ "°C" else f.minTemp := by
  unfold applySwitch; split_ifs <;> simp_all

lemma applySwitch_maxTemp (f : Forecast) (name : String) (v : Parameter) :
    (applySwitch f name v).maxTemp =
      if name = "MaxT" then v.parameterName ++ "°C" else f.maxTemp := by
  unfold applySwitch; split_ifs <;> simp_all

lemma applySwitch_comfort (f : Forecast) (name : String) (v : Parameter) :
    (applySwitch f name v).comfort =
      if name = "CI" then v.parameterName else f.comfort := by
  unfold applySwitch; split_ifs <;> simp_all

lemma applySwitch_windSpeed (f : Forecast) (name : String) (v : Parameter) :
    (applySwitch f name v).windSpeed =
      if name = "WS" then v.parameterName else f.windSpeed := by
  unfold applySwitch; split_ifs <;> simp_all

lemma applySwitch_startTime (f : Forecast) (name : String) (v : Parameter) :
    (applySwitch f name v).startTime = f.startTime := by
  unfold applySwitch; split_ifs <;> rfl

lemma applySwitch_endTime (f : Forecast) (name : String) (v : Parameter) :
    (applySwitch f name v).endTime = f.endTime := by
  unfold applySwitch; split_ifs <;> rfl

lemma paramAt_eq (e : WeatherElement) (i : Nat) (slot : TimeSlot)
    (h : e.time[i]? = some slot) : paramAt e i = slot.parameter.parameterName := by
  simp [paramAt, h]

lemma fieldOr_eq_lastNamedFrom (code suffix : String) (i : Nat) :
    ∀ (es : List WeatherElement) (acc : Option WeatherElement) (dflt : String),
      fieldOr code suffix i
        (match acc with
         | some e => paramAt e i ++ suffix
         | none => dflt) es =
      match lastNamedFrom code acc es with
      | some e => paramAt e i ++ suffix
      | none => dflt := by
  intro es
  induction es with
  | nil => intro acc dflt; rfl
  | cons e es ih =>
    intro acc dflt
    by_cases h : e.elementName = code
    · have := ih (some e) dflt
      simpa [fieldOr, lastNamedFrom, h] using this
    · have := ih acc dflt
      simpa [fieldOr, lastNamedFrom, h] using this

lemma fieldOr_empty_eq_fieldText (code suffix : String) (i : Nat)
    (es : List WeatherElement) :
    fieldOr code suffix i "" es = fieldText code suffix es i := by
  have := fieldOr_eq_lastNamedFrom code suffix i es none ""
  simpa [fieldText, lastNamed] using this

lemma foldExcept_applyElement_ok (i : Nat) :
    ∀ (es : List WeatherElement) (f g : Forecast),
      foldExcept (applyElement i) f es = .ok g →
      g.startTime = f.startTime ∧ g.endTime = f.endTime ∧
      g.weather = fieldOr "Wx" "" i f.weather es ∧
      g.rain = fieldOr "PoP" "%" i f.rain es ∧
      g.minTemp = fieldOr "MinT" "°C" i f.minTemp es ∧
      g.maxTemp = fieldOr "MaxT" "°C" i f.maxTemp es ∧
      g.comfort = fieldOr "CI" "" i f.comfort es ∧
      g.windSpeed = fieldOr "WS" "" i f.windSpeed es := by
  intro es
  induction es with
  | nil =>
    intro f g h
    have hg : f = g := by simpa [foldExcept] using h
    subst hg
    exact ⟨rfl, rfl, rfl, rfl, rfl, rfl, rfl, rfl⟩
  | cons e es ih =>
    intro f g h
    rcases hslot : e.time[i]? with _ | slot
    · simp [foldExcept, applyElement, hslot] at h
    · have hstep : foldExcept (applyElement i)
          (applySwitch f e.elementName slot.parameter) es = .ok g := by
        simpa [foldExcept, applyElement, hslot] using h
      obtain ⟨h1, h2, h3, h4, h5, h6, h7, h8⟩ := ih _ g hstep
      have hp := paramAt_eq e i slot hslot
      refine ⟨?_, ?_, ?_, ?_, ?_, ?_, ?_, ?_⟩
      · rw [h1, applySwitch_startTime]
      · rw [h2, applySwitch_endTime]
      · rw [h3, applySwitch_weather]
        show _ = fieldOr "Wx" "" i
          (if e.elementName = "Wx" then paramAt e i ++ "" else f.weather) es
        rw [hp]
        simp
      · rw [h4, applySwitch_rain]
        show _ = fieldOr "PoP" "%" i
          (if e.elementName = "PoP" then paramAt e i ++ "%" else f.rain) es
        rw [hp]
      · rw [h5, applySwitch_minTemp]
        show _ = fieldOr "MinT" "°C" i
          (if e.elementName = "MinT" then paramAt e i ++ "°C" else f.minTemp) es
        rw [hp]
      · rw [h6, applySwitch_maxTemp]
        show _ = fieldOr "MaxT" "°C" i
          (if e.elementName = "MaxT" then paramAt e i ++ "°C" else f.maxTemp) es
        rw [hp]
      · rw [h7, applySwitch_comfort]
        show _ = fieldOr "CI" "" i
          (if e.elementName = "CI" then paramAt e i ++ "" else f.comfort) es
        rw [hp]
        simp
      · rw [h8, applySwitch_windSpeed]
        show _ = fieldOr "WS" "" i
          (if e.elementName = "WS" then paramAt e i ++ "" else f.windSpeed) es
        rw [hp]
        simp

lemma mapExcept_ok_length {α β ε : Type} (f : α → Except ε β) :
    ∀ (l : List α) (ys : List β), mapExcept f l = .ok ys →
      ys.length = l.length := by
  intro l
  induction l with
  | nil =>
    intro ys h
    have : ([] : List β) = ys := by simpa [mapExcept] using h
    simp [← this]
  | cons x xs ih =>
    intro ys h
    rcases hx : f x with e | y
    · simp [mapExcept, hx] at h
    · rcases hxs : mapExcept f xs with e | ys0
      · simp [mapExcept, hx, hxs] at h
      · have : y :: ys0 = ys := by simpa [mapExcept, hx, hxs] using h
        subst this
        simp [ih ys0 hxs]

lemma mapExcept_ok_fwd {α β ε : Type} (f : α → Except ε β) :
    ∀ (l : List α) (ys : List β), mapExcept f l = .ok ys →
      ∀ (i : Nat) (x : α), l[i]? = some x →
        ∃ y, ys[i]? = some y ∧ f x = .ok y := by
  intro l
  induction l with
  | nil => intro ys h i x hx; simp at hx
  | cons a xs ih =>
    intro ys h i x hx
    rcases ha : f a with e | y
    · simp [mapExcept, ha] at h
    · rcases hxs : mapExcept f xs with e | ys0
      · simp [mapExcept, ha, hxs] at h
      · have hys : y :: ys0 = ys := by simpa [mapExcept, ha, hxs] using h
        subst hys
        match i with
        | 0 =>
          have : a = x := by simpa using hx
          subst this
          exact ⟨y, by simp, ha⟩
        | Nat.succ j =>
          have hx2 : xs[j]? = some x := by simpa using hx
          obtain ⟨y2, hy2, hfy2⟩ := ih ys0 hxs j x hx2
          exact ⟨y2, by simpa using hy2, hfy2⟩

lemma mapExcept_ok_of_all {α β ε : Type} (f : α → Except ε β) :
    ∀ (l : List α), (∀ x ∈ l, ∃ y, f x = .ok y) →
      ∃ ys, mapExcept f l = .ok ys := by
  intro l
  induction l with
  | nil => intro _; exact ⟨[], rfl⟩
  | cons x xs ih =>
    intro h
    obtain ⟨y, hy⟩ := h x (by simp)
    obtain ⟨ys, hys⟩ := ih (fun a ha => h a (by simp [ha]))
    exact ⟨y :: ys, by simp [mapExcept, hy, hys]⟩

lemma foldExcept_ok_of_all {α σ ε : Type} (g : σ → α → Except ε σ) :
    ∀ (l : List α), (∀ s : σ, ∀ x ∈ l, ∃ s2, g s x = .ok s2) →
      ∀ s : σ, ∃ s2, foldExcept g s l = .ok s2 := by
  intro l
  induction l with
  | nil => intro _ s; exact ⟨s, rfl⟩
  | cons x xs ih =>
    intro h s
    obtain ⟨s1, hs1⟩ := h s x (by simp)
    obtain ⟨s2, hs2⟩ := ih (fun s a ha => h s a (by simp [ha])) s1
    exact ⟨s2, by simp [foldExcept, hs1, hs2]⟩

lemma applyElement_ok_of_lt (i : Nat) (f : Forecast) (e : WeatherElement)
    (h : i < e.time.length) : ∃ g, applyElement i f e = .ok g := by
  obtain ⟨slot, hs⟩ : ∃ slot, e.time[i]? = some slot :=
    ⟨e.time[i], List.getElem?_eq_getElem h⟩
  exact ⟨applySwitch f e.elementName slot.parameter, by simp [applyElement, hs]⟩

lemma buildForecast_ok_times (els : List WeatherElement)
    (first : WeatherElement) (i : Nat) (g : Forecast)
    (h : buildForecast els first i = .ok g) :
    ∃ slot, first.time[i]? = some slot ∧
      g.startTime = slot.startTime ∧ g.endTime = slot.endTime := by
  rcases hs : first.time[i]? with _ | slot
  · simp [buildForecast, hs] at h
  · have hfold : foldExcept (applyElement i)
        { startTime := slot.startTime, endTime := slot.endTime,
          weather := "", rain := "", minTemp := "", maxTemp := "",
          comfort := "", windSpeed := "" } els = .ok g := by
      simpa [buildForecast, hs] using h
    obtain ⟨h1, h2, _⟩ := foldExcept_applyElement_ok i els _ g hfold
    exact ⟨slot, rfl, h1, h2⟩

lemma buildForecast_ok_fields (els : List WeatherElement)
    (first : WeatherElement) (i : Nat) (g : Forecast)
    (h : buildForecast els first i = .ok g) :
    g.weather = fieldText "Wx" "" els i ∧
    g.rain = fieldText "PoP" "%" els i ∧
    g.minTemp = fieldText "MinT" "°C" els i ∧
    g.maxTemp = fieldText "MaxT" "°C" els i ∧
    g.comfort = fieldText "CI" "" els i ∧
    g.windSpeed = fieldText "WS" "" els i := by
  rcases hs : first.time[i]? with _ | slot
  · simp [buildForecast, hs] at h
  · have hfold : foldExcept (applyElement i)
        { startTime := slot.startTime, endTime := slot.endTime,
          weather := "", rain := "", minTemp := "", maxTemp := "",
          comfort := "", windSpeed := "" } els = .ok g := by
      simpa [buildForecast, hs] using h
    obtain ⟨_, _, h3, h4, h5, h6, h7, h8⟩ :=
      foldExcept_applyElement_ok i els _ g hfold
    rw [h3, h4, h5, h6, h7, h8]
    exact ⟨fieldOr_empty_eq_fieldText _ _ _ _, fieldOr_empty_eq_fieldText _ _ _ _,
      fieldOr_empty_eq_fieldText _ _ _ _, fieldOr_empty_eq_fieldText _ _ _ _,
      fieldOr_empty_eq_fieldText _ _ _ _, fieldOr_empty_eq_fieldText _ _ _ _⟩

lemma normalize_ok_shape (raw : RawDocument) (name : String)
    (loc : LocationData) (first : WeatherElement) (wd : WeatherData)
    (h1 : raw.records.location.head? = some loc)
    (h2 : loc.weatherElement.head? = some first)
    (h3 : normalize raw name = .ok wd) :
    ∃ fc, mapExcept (buildForecast loc.weatherElement first)
        (List.range first.time.length) = .ok fc ∧
      wd = { city := loc.locationName,
             updateTime := raw.records.datasetDescription,
             forecasts := fc } := by
  rcases hm : mapExcept (buildForecast loc.weatherElement first)
      (List.range first.time.length) with e | fc
  · exfalso
    simp [normalize, h1, h2, hm] at h3
  · refine ⟨fc, rfl, ?_⟩
    have h4 := h3
    simp [normalize, h1, h2, hm] at h4
    exact h4.symm

/-- Claim C1: for every raw upstream document whose per-location record
list is empty, `normalize` fails with a NotFoundError whose message
references the originally requested location name, and no normalized
forecast is produced. -/
theorem claim_C1_empty_locations_not_found (raw : RawDocument)
    (cityName : String) (h : raw.records.location = []) :
    normalize raw cityName =
      .error (.notFound ("無法取得" ++ cityName ++ "天氣資料")) := by
  simp [normalize, h]

/-- Witness for C1 at a concrete empty-location document. -/
theorem claim_C1_witness :
    normalize emptyRaw "臺北市" =
      .error (.notFound ("無法取得" ++ "臺北市" ++ "天氣資料")) :=
  claim_C1_empty_locations_not_found emptyRaw "臺北市" rfl

/-- Claim C2: whenever `normalize` returns a forecast for a document whose
first record's first weather element has `n` time slots, the forecasts
sequence has length exactly `n` and its i-th entry copies `startTime` and
`endTime` from the first element's i-th time slot, in input order. -/
theorem claim_C2_forecast_length_and_slot_times (raw : RawDocument)
    (name : String) (loc : LocationData) (first : WeatherElement)
    (wd : WeatherData)
    (h1 : raw.records.location.head? = some loc)
    (h2 : loc.weatherElement.head? = some first)
    (h3 : normalize raw name = .ok wd) :
    wd.forecasts.length = first.time.length ∧
    ∀ i, i < first.time.length →
      (wd.forecasts[i]?).map Forecast.startTime =
        (first.time[i]?).map TimeSlot.startTime ∧
      (wd.forecasts[i]?).map Forecast.endTime =
        (first.time[i]?).map TimeSlot.endTime := by
  obtain ⟨fc, hm, hwd⟩ := normalize_ok_shape raw name loc first wd h1 h2 h3
  subst hwd
  have hlen : fc.length = first.time.length := by
    have := mapExcept_ok_length _ _ _ hm
    simpa using this
  refine ⟨hlen, ?_⟩
  intro i hi
  have hri : (List.range first.time.length)[i]? = some i := by
    simp [List.getElem?_range, hi]
  obtain ⟨y, hy, hb⟩ := mapExcept_ok_fwd _ _ _ hm i i hri
  obtain ⟨slot, hslot, hst, het⟩ := buildForecast_ok_times _ _ _ _ hb
  constructor
  · show (fc[i]?).map Forecast.startTime = _
    rw [hy, hslot]
    simp [hst]
  · show (fc[i]?).map Forecast.endTime = _
    rw [hy, hslot]
    simp [het]

/-- Witness for C2 at the concrete sample document. -/
theorem claim_C2_witness :
    sampleWD.forecasts.length = wxElem.time.length ∧
    (sampleWD.forecasts[0]?).map Forecast.startTime =
      (wxElem.time[0]?).map TimeSlot.startTime :=
  ⟨(claim_C2_forecast_length_and_slot_times sampleRaw "臺北市" sampleLoc
      wxElem sampleWD rfl rfl rfl).1,
   ((claim_C2_forecast_length_and_slot_times sampleRaw "臺北市" sampleLoc
      wxElem sampleWD rfl rfl rfl).2 0 (by decide)).1⟩

/-- Claim C3: each returned forecast entry's fields carry, per element
code, the raw value of the last element with that code — `PoP` suffixed
with "%", `MinT`/`MaxT` with "°C", `Wx`/`CI`/`WS` unsuffixed — elements
with any other code never influence a field, and a field whose code is
absent from the record stays the empty string (the `none` branch of
`fieldText`). -/
theorem claim_C3_field_texts (raw : RawDocument) (name : String)
    (loc : LocationData) (first : WeatherElement) (wd : WeatherData)
    (h1 : raw.records.location.head? = some loc)
    (h2 : loc.weatherElement.head? = some first)
    (h3 : normalize raw name = .ok wd) :
    ∀ (i : Nat) (entry : Forecast), wd.forecasts[i]? = some entry →
      entry.weather = fieldText "Wx" "" loc.weatherElement i ∧
      entry.rain = fieldText "PoP" "%" loc.weatherElement i ∧
      entry.minTemp = fieldText "MinT" "°C" loc.weatherElement i ∧
      entry.maxTemp = fieldText "MaxT" "°C" loc.weatherElement i ∧
      entry.comfort = fieldText "CI" "" loc.weatherElement i ∧
      entry.windSpeed = fieldText "WS" "" loc.weatherElement i := by
  obtain ⟨fc, hm, hwd⟩ := normalize_ok_shape raw name loc first wd h1 h2 h3
  subst hwd
  intro i entry hentry
  have hentry2 : fc[i]? = some entry := hentry
  have hi : i < fc.length := (List.getElem?_eq_some.mp hentry2).1
  have hi2 : i < first.time.length := by
    have := mapExcept_ok_length _ _ _ hm
    simp at this
    omega
  have hri : (List.range first.time.length)[i]? = some i := by
    simp [List.getElem?_range, hi2]
  obtain ⟨y, hy, hb⟩ := mapExcept_ok_fwd _ _ _ hm i i hri
  have hye : y = entry := by
    rw [hentry2] at hy
    exact (Option.some_inj.mp hy).symm
  subst hye
  exact buildForecast_ok_fields _ _ _ _ hb

/-- Witness for C3 at slot 0 of the concrete sample document. -/
theorem claim_C3_witness :
    sampleForecast0.weather = fieldText "Wx" "" sampleLoc.weatherElement 0 ∧
    sampleForecast0.rain = fieldText "PoP" "%" sampleLoc.weatherElement 0 ∧
    sampleForecast0.minTemp = fieldText "MinT" "°C" sampleLoc.weatherElement 0 ∧
    sampleForecast0.maxTemp = fieldText "MaxT" "°C" sampleLoc.weatherElement 0 ∧
    sampleForecast0.comfort = fieldText "CI" "" sampleLoc.weatherElement 0 ∧
    sampleForecast0.windSpeed = fieldText "WS" "" sampleLoc.weatherElement 0 :=
  claim_C3_field_texts sampleRaw "臺北市" sampleLoc wxElem sampleWD
    rfl rfl rfl 0 sampleForecast0 rfl

/-- Claim C4: the concrete document with one location record holding
exactly `Wx` ("Cloudy" then "Rainy") and `PoP` ("10" then "80") over two
aligned slots normalizes to two entries: "Cloudy" with rain text "10%"
and all remaining fields empty, then "Rainy" with rain text "80%". -/
theorem claim_C4_concrete_two_slot_document :
    normalize sampleRaw "臺北市" =
      .ok { city := "臺北市", updateTime := "三十六小時天氣預報",
            forecasts :=
              [{ startTime := "2024-01-01T00:00",
                 endTime := "2024-01-01T06:00", weather := "Cloudy",
                 rain := "10%", minTemp := "", maxTemp := "",
                 comfort := "", windSpeed := "" },
               { startTime := "2024-01-01T06:00",
                 endTime := "2024-01-01T12:00", weather := "Rainy",
                 rain := "80%", minTemp := "", maxTemp := "",
                 comfort := "", windSpeed := "" }] } := by
  decide

/-- Claim C5: whenever `normalize` returns an output for a document with
a non-empty location list, the output's `city` is the first location
record's own `locationName` (not the requested name) and its `updateTime`
is the document-level `datasetDescription`. -/
theorem claim_C5_city_and_updateTime (raw : RawDocument) (name : String)
    (loc : LocationData) (wd : WeatherData)
    (h1 : raw.records.location.head? = some loc)
    (h3 : normalize raw name = .ok wd) :
    wd.city = loc.locationName ∧
    wd.updateTime = raw.records.datasetDescription := by
  rcases h2 : loc.weatherElement.head? with _ | first
  · exfalso
    simp [normalize, h1, h2] at h3
  · obtain ⟨fc, hm, hwd⟩ := normalize_ok_shape raw name loc first wd h1 h2 h3
    subst hwd
    exact ⟨rfl, rfl⟩

/-- Witness for C5 at the concrete sample document: the requested name is
deliberately different from the record's own name. -/
theorem claim_C5_witness :
    sampleWD.city = sampleLoc.locationName ∧
    sampleWD.updateTime = sampleRaw.records.datasetDescription :=
  claim_C5_city_and_updateTime sampleRaw "高雄市" sampleLoc sampleWD rfl rfl

/-- Claim C6: the transform and both handler layers are pure functions of
their inputs — running them twice on the same input yields structurally
identical results, and no input is mutated (the embedding is a pure
function of immutable values). -/
theorem claim_C6_normalize_deterministic (raw : RawDocument)
    (name : String) (key : Option String) (param : String) :
    normalize raw name = normalize raw name ∧
    getCityWeather key raw name = getCityWeather key raw name ∧
    handleCityRequest param key raw = handleCityRequest param key raw :=
  ⟨rfl, rfl, rfl⟩

/-- Claim C7: if every weather element of the (existing) first location
record has a time sequence of the same length as the first element's,
every positional access is in bounds: `normalize` succeeds, so the
out-of-range (`typeError`) branch of the embedded indexing is never
taken. -/
theorem claim_C7_aligned_elements_never_type_error (raw : RawDocument)
    (name : String) (loc : LocationData) (first : WeatherElement)
    (h1 : raw.records.location.head? = some loc)
    (h2 : loc.weatherElement.head? = some first)
    (halign : ∀ e ∈ loc.weatherElement, e.time.length = first.time.length) :
    ∃ wd, normalize raw name = .ok wd := by
  have hb : ∀ i ∈ List.range first.time.length,
      ∃ g, buildForecast loc.weatherElement first i = .ok g := by
    intro i hi
    have hi2 : i < first.time.length := List.mem_range.mp hi
    obtain ⟨slot, hs⟩ : ∃ slot, first.time[i]? = some slot :=
      ⟨first.time[i], List.getElem?_eq_getElem hi2⟩
    obtain ⟨g, hg⟩ := foldExcept_ok_of_all (applyElement i)
      loc.weatherElement
      (fun s x hx => applyElement_ok_of_lt i s x (by rw [halign x hx]; exact hi2))
      { startTime := slot.startTime, endTime := slot.endTime,
        weather := "", rain := "", minTemp := "", maxTemp := "",
        comfort := "", windSpeed := "" }
    exact ⟨g, by simp [buildForecast, hs, hg]⟩
  obtain ⟨fc, hfc⟩ := mapExcept_ok_of_all _ _ hb
  exact ⟨{ city := loc.locationName,
           updateTime := raw.records.datasetDescription, forecasts := fc },
    by simp [normalize, h1, h2, hfc]⟩

/-- Witness for C7 at the concrete aligned sample document. -/
theorem claim_C7_witness : ∃ wd, normalize sampleRaw "臺北市" = .ok wd :=
  claim_C7_aligned_elements_never_type_error sampleRaw "臺北市" sampleLoc
    wxElem rfl rfl (by decide)

/-- Claim C8: the city table has exactly 22 entries, its keys are
pairwise distinct and are ASCII strings with no upper-case letters
(lower-case letters and hyphens only); lookups are pure reads of this
fixed literal, so no operation mutates it. -/
theorem claim_C8_city_map_invariants :
    CITY_MAP.length = 22 ∧
    (CITY_MAP.map Prod.fst).Nodup ∧
    (CITY_MAP.map Prod.fst).all
      (fun k => k.data.all
        (fun c => decide (c.toNat < 128) && (c.isLower || decide (c = '-'))))
      = true := by
  decide

/-- Claim C9: with the API-key credential absent (unset or empty), every
weather request is answered with the 500 configuration-error response
telling the operator to set the key, identically for every upstream
document — so no upstream call and no normalization can influence the
outcome; the check lives outside `normalize`. -/
theorem claim_C9_missing_key_config_error (key : Option String)
    (h : keyMissing key = true) :
    ∀ (raw raw2 : RawDocument) (name : String),
      getCityWeather key raw name =
        .configErr 500 "請在 .env 檔案中設定 CWA_API_KEY" ∧
      getCityWeather key raw name = getCityWeather key raw2 name := by
  intro raw raw2 name
  constructor <;> simp [getCityWeather, h]

/-- Witness for C9 with the key unset. -/
theorem claim_C9_witness :
    getCityWeather none sampleRaw "臺北市" =
      .configErr 500 "請在 .env 檔案中設定 CWA_API_KEY" ∧
    getCityWeather none sampleRaw "臺北市" =
      getCityWeather none emptyRaw "臺北市" :=
  claim_C9_missing_key_config_error none rfl sampleRaw emptyRaw "臺北市"

/-- Claim C10 (counterexample to the original claim): "constructor"
lower-cases to itself and is not a key of the 22-entry table, yet the
route does not answer the bad-request rejection — the truthy inherited
`Object.prototype.constructor` passes the falsy check and the request
proceeds into the weather handler, here all the way to a 200 response
built from the upstream document. -/
theorem claim_C10_counterexample :
    (CITY_MAP.map Prod.fst).contains "constructor" = false ∧
    handleCityRequest "constructor" (some "k") sampleRaw =
      .okResp 200 sampleWD := by
  decide

/-- Claim C10 (amended): the route lower-cases the city parameter before
the lookup, so parameters equal up to letter case get identical
responses; an ASCII parameter whose lower-cased form is neither a table
key nor an inherited `Object.prototype` property name is rejected with
the 400 listing the supported codes, identically for every key and
upstream document — no upstream call, no normalization; but the
inherited names "constructor" and "__proto__" look up truthy prototype
members, so those requests proceed into the weather handler with the
stringified member as the location name. -/
theorem claim_C10_amended_route_behavior :
    (∀ (p q : String) (key : Option String) (raw : RawDocument),
        toLowerStr p = toLowerStr q →
        handleCityRequest p key raw = handleCityRequest q key raw) ∧
    (∀ (p : String) (key key2 : Option String) (raw raw2 : RawDocument),
        (∀ c ∈ p.data, c.toNat < 128) →
        toLowerStr p ∉ CITY_MAP.map Prod.fst →
        toLowerStr p ≠ "__proto__" →
        protoFnNames.contains (toLowerStr p) = false →
        handleCityRequest p key raw =
          .badRequest 400 "請使用以下城市代碼之一" (CITY_MAP.map Prod.fst)
            (toLowerStr p) ∧
        handleCityRequest p key raw = handleCityRequest p key2 raw2) ∧
    (∀ (key : Option String) (raw : RawDocument),
        handleCityRequest "constructor" key raw =
          getCityWeather key raw "function Object() { [native code] }" ∧
        handleCityRequest "__proto__" key raw =
          getCityWeather key raw "[object Object]") := by
  refine ⟨?_, ?_, ?_⟩
  · intro p q key raw h
    simp [handleCityRequest, h]
  · intro p key key2 raw raw2 hA hk hp1 hp2
    have hl : cityLookup (toLowerStr p) = none := by
      rcases hf : CITY_MAP.find? (fun q2 => q2.1 = toLowerStr p) with _ | pair
      · simp [cityLookup, hf]
      · exfalso
        have hpmem : pair ∈ CITY_MAP := List.mem_of_find?_eq_some hf
        have heq : pair.1 = toLowerStr p := by
          simpa using List.find?_some hf
        have h1 : pair.1 ∈ CITY_MAP.map Prod.fst :=
          List.mem_map_of_mem Prod.fst hpmem
        rw [heq] at h1
        exact hk h1
    have hp2m : toLowerStr p ∉ protoFnNames := by simpa using hp2
    have hg : CITY_MAP_get (toLowerStr p) = none := by
      simp [CITY_MAP_get, hl, hp1, hp2m]
    constructor <;> simp [handleCityRequest, hg]
  · intro key raw
    have hc : CITY_MAP_get (toLowerStr "constructor") =
        some (.protoFn "Object") := by decide
    have hp : CITY_MAP_get (toLowerStr "__proto__") = some .protoObj := by
      decide
    constructor
    · simp [handleCityRequest, hc, jsTruthy, jsToString]
    · simp [handleCityRequest, hp, jsTruthy, jsToString]

/-- Witness for the amended C10: "TAIPEI" and "Taipei" get the same
response, the unknown ASCII code "zzz" gets the supported-codes 400
regardless of key and upstream document, and "constructor" proceeds into
the weather handler. -/
theorem claim_C10_witness :
    handleCityRequest "TAIPEI" (some "k") sampleRaw =
      handleCityRequest "Taipei" (some "k") sampleRaw ∧
    (handleCityRequest "zzz" (some "k") sampleRaw =
      .badRequest 400 "請使用以下城市代碼之一" (CITY_MAP.map Prod.fst)
        (toLowerStr "zzz") ∧
     handleCityRequest "zzz" (some "k") sampleRaw =
      handleCityRequest "zzz" none emptyRaw) ∧
    handleCityRequest "constructor" (some "k") sampleRaw =
      getCityWeather (some "k") sampleRaw
        "function Object() { [native code] }" :=
  ⟨claim_C10_amended_route_behavior.1 "TAIPEI" "Taipei" (some "k") sampleRaw
      (by decide),
   claim_C10_amended_route_behavior.2.1 "zzz" (some "k") none sampleRaw
      emptyRaw (by decide) (by decide) (by decide) (by decide),
   (claim_C10_amended_route_behavior.2.2 (some "k") sampleRaw).1⟩

end CWA
